import Mathlib

/-!
Verification of the metadata normalization core of wk_load_media.py:
the inline date-normalization chain of get_ycba_generator (lines 350-395)
and the medium/surface extractor get_medium_poperties (lines 550-581)
together with its two rule tables media (590-657) and surfaces (664-682).

Python regular expressions are embedded as a small matching engine over
List Char that reproduces the constructs actually used by the source
(literal characters under re.I, the classes \s and \W, the quantifiers
+ ? * on \s, alternation with the Python leftmost, first-alternative
priority, and the anchor ^), together with re.search (try each start
position from the left) and re.sub with empty replacement (remove all
non-overlapping leftmost matches, scanning left to right).
-/

/-- Python regex class \s restricted to its ASCII members
[ \t\n\r\f\v], the only ones the catalogue data can contain. -/
def isSpaceCh (c : Char) : Bool :=
  c == ' ' || c == '\t' || c == '\n' || c == '\r' || c == '\x0c' || c == '\x0b'

/-- Python regex class \w (word character): alphanumerics and the
underscore, plus the two accented letters occurring in the rule tables
(Python \w is Unicode-aware). -/
def isWordChar (c : Char) : Bool :=
  c.isAlphanum || c == '_' || c == 'é' || c == 'â'

/-- ASCII case-insensitive character comparison, modelling how re.I
compares a subject character with a pattern character. -/
def eqCI (a b : Char) : Bool :=
  a == b
    || (decide (a.toNat + 32 = b.toNat) && decide (65 ≤ a.toNat) && decide (a.toNat ≤ 90))
    || (decide (b.toNat + 32 = a.toNat) && decide (65 ≤ b.toNat) && decide (b.toNat ≤ 90))

/-- Abstract syntax of the regex fragment used by the source tables. -/
inductive RE where
  | eps                      -- empty pattern
  | lit (c : Char)           -- literal character, compared under re.I
  | spaceOne                 -- \s
  | spacePlus                -- \s+ (greedy)
  | nonWord                  -- \W
  | bol                      -- ^ (start of subject string)
  | seq (a b : RE)           -- concatenation
  | alt (a b : RE)           -- alternation, left alternative preferred
  deriving Repr

/-- Pattern for a literal string (character-by-character concatenation). -/
def rstr (s : String) : RE :=
  s.data.foldr (fun c r => RE.seq (RE.lit c) r) RE.eps

/-- \s? (greedy: prefer consuming the space). -/
def spaceOpt : RE := RE.alt RE.spaceOne RE.eps

/-- \s* (greedy), as one-or-more preferred over nothing. -/
def spaceStar : RE := RE.alt RE.spacePlus RE.eps

/-- Remainders after consuming zero or more leading \s characters,
longest consumption first (greedy order). -/
def consumeMany : List Char → List (List Char)
  | [] => [[]]
  | c :: r => if isSpaceCh c then consumeMany r ++ [c :: r] else [c :: r]

/-- All ways a pattern can match a prefix of the subject, in the
Python backtracking priority order.  Each result is (still-at-start?, rest).
The Bool tracks whether we are still at position 0 of the whole
subject, which is what the anchor ^ tests. -/
def mruns : RE → Bool → List Char → List (Bool × List Char)
  | RE.eps, st, l => [(st, l)]
  | RE.bol, st, l => if st then [(st, l)] else []
  | RE.lit _, _, [] => []
  | RE.lit c, _, d :: r => if eqCI d c then [(false, r)] else []
  | RE.spaceOne, _, [] => []
  | RE.spaceOne, _, d :: r => if isSpaceCh d then [(false, r)] else []
  | RE.nonWord, _, [] => []
  | RE.nonWord, _, d :: r => if !isWordChar d then [(false, r)] else []
  | RE.spacePlus, _, [] => []
  | RE.spacePlus, _, d :: r =>
      if isSpaceCh d then (consumeMany r).map (fun l2 => (false, l2)) else []
  | RE.seq a b, st, l => (mruns a st l).flatMap (fun p => mruns b p.1 p.2)
  | RE.alt a b, st, l => mruns a st l ++ mruns b st l

/-- re.search: does the pattern match starting at some position?  st is
true exactly while the scan is still at position 0. -/
def searchFrom (r : RE) (st : Bool) : List Char → Bool
  | [] => !(mruns r st []).isEmpty
  | c :: tl => !(mruns r st (c :: tl)).isEmpty || searchFrom r false tl

/-- re.search(pattern, text): match attempted at every position from
the left, position 0 first. -/
def re_search (r : RE) (l : List Char) : Bool :=
  searchFrom r true l

/-- One left-to-right removal pass of re.sub(pattern, '', text): at each
position take the priority-first match if any, drop the matched span,
and continue after it (an empty match just advances).  Fuel is an upper
bound on the number of steps; each step strictly shortens the subject. -/
def subFrom : Nat → RE → Bool → List Char → List Char
  | 0, _, _, l => l
  | _ + 1, _, _, [] => []
  | fuel + 1, r, st, c :: tl =>
    match mruns r st (c :: tl) with
    | (_, rem) :: _ =>
        if rem.length < tl.length + 1 then subFrom fuel r false rem
        else c :: subFrom fuel r false tl
    | [] => c :: subFrom fuel r false tl

/-- re.sub(pattern, empty replacement, text): remove every
non-overlapping leftmost match. -/
def re_sub (r : RE) (l : List Char) : List Char :=
  subFrom (l.length + 1) r true l

/-- Textual prefixing of a group such as (^|\W) onto a pattern string,
as done by the f-strings in the source.  Regex concatenation binds
tighter than |, so when the stored pattern has a top-level alternation
(the table entry etching|etched) the group attaches only to the
leftmost alternative. -/
def prependGroup (g : RE) : RE → RE
  | RE.alt a b => RE.alt (prependGroup g a) b
  | r => RE.seq g r

/-- The left word boundary (^|\W) used by the medium and bare-surface
searches (lines 556 and 577). -/
def wordBound : RE := RE.alt RE.bol RE.nonWord

/-- The search pattern fr"(^|\W){pat}" of lines 556 and 577. -/
def bpat (r : RE) : RE := prependGroup wordBound r

/-- The phase-2 pattern fr"(^|\s)on\s+{surface}" of line 568. -/
def onPat (r : RE) : RE :=
  RE.seq (RE.alt RE.bol RE.spaceOne) (RE.seq (rstr "on") (RE.seq RE.spacePlus r))

/-- A row of the media table: pattern, Wikidata Qid, is-paint flag. -/
structure MediumRule where
  medium : RE
  qid : String
  paint : Bool

/-- A row of the surfaces table: pattern and Wikidata Qid. -/
structure SurfaceRule where
  surface : RE
  qid : String

/-- a\s+b -/
def wsp (a b : RE) : RE := RE.seq a (RE.seq RE.spacePlus b)

/-- The media table of wk_load_media.py lines 590-657, in declaration
order ("paint is last"). -/
def media : List MediumRule := [
  ⟨rstr "Ancaster stone", "Q4752538", false⟩,
  ⟨rstr "acrylic", "Q207849", true⟩,
  ⟨rstr "alabaster", "Q143447", false⟩,
  ⟨wsp (rstr "albumen") (rstr "print"), "Q580807", false⟩,
  ⟨rstr "aquatint", "Q473236", false⟩,
  ⟨rstr "arborite", "Q4784911", false⟩,
  ⟨wsp (rstr "black") (rstr "basalt"), "Q98097860", false⟩,
  ⟨rstr "bronze", "Q34095", false⟩,
  ⟨wsp (rstr "brown") (rstr "ink"), "Q58344150", false⟩,
  ⟨rstr "ink", "Q127418", false⟩,
  ⟨wsp (rstr "black") (rstr "chalk"), "Q3387833", false⟩,
  ⟨wsp (rstr "red") (rstr "chalk"), "Q901944", false⟩,
  ⟨rstr "carborundum", "Q3206631", false⟩,
  ⟨rstr "ceramic", "Q45621", false⟩,
  ⟨rstr "chalk", "Q183670", false⟩,
  ⟨rstr "charcoal", "Q1424515", false⟩,
  ⟨wsp (rstr "chine") (rstr "collé"), "Q3674992", false⟩,
  ⟨rstr "cibachrome", "Q1622095", false⟩,
  ⟨rstr "collotype", "Q1572315", false⟩,
  ⟨rstr "concrete", "Q22657", false⟩,
  ⟨wsp (rstr "coade") (rstr "stone"), "Q682083", false⟩,
  ⟨rstr "copper", "Q753", false⟩,
  ⟨rstr "conté crayon", "Q1129270", false⟩,
  ⟨rstr "drypoint", "Q542340", false⟩,
  ⟨rstr "dye coupler", "Q172922", false⟩,
  ⟨rstr "enamel", "Q213371", false⟩,
  ⟨RE.seq (rstr "stipple") (RE.alt RE.eps (RE.seq RE.spacePlus (rstr "engraving"))),
    "Q7617514", false⟩,
  ⟨wsp (rstr "line") (rstr "engraving"), "Q747704", false⟩,
  ⟨rstr "engrav", "Q11835431", false⟩,
  ⟨RE.alt (rstr "etching") (rstr "etched"), "Q186986", false⟩,
  ⟨wsp (rstr "gelatin") (wsp (rstr "silver") (rstr "print")), "Q64029133", false⟩,
  ⟨rstr "gesso", "Q1514256", true⟩,
  ⟨wsp (rstr "gold") (rstr "leaf"), "Q929186", false⟩,
  ⟨rstr "gold", "Q208045", false⟩,
  ⟨rstr "gouache", "Q204330", true⟩,
  ⟨rstr "graphite", "Q5309", false⟩,
  ⟨wsp (rstr "gum") (rstr "arabic"), "Q535814", false⟩,
  ⟨rstr "ivory", "Q82001", false⟩,
  ⟨rstr "lacquer", "Q11236878", false⟩,
  ⟨rstr "lead", "Q708", false⟩,
  ⟨rstr "letterpress", "Q582102", false⟩,
  ⟨rstr "lithograph", "Q15123870", false⟩,
  ⟨rstr "marble", "Q40861", false⟩,
  ⟨rstr "mezzotint", "Q731980", false⟩,
  ⟨wsp (rstr "mixed") (rstr "media"), "Q1902763", false⟩,
  ⟨rstr "monotype", "Q22669635", false⟩,
  ⟨rstr "oil", "Q296955", true⟩,
  ⟨wsp (rstr "papier") (rstr "mache"), "Q899363", false⟩,
  ⟨wsp (rstr "papier") (rstr "mâché"), "Q899363", false⟩,
  ⟨rstr "pastel", "Q189085", false⟩,
  ⟨RE.seq (rstr "pearl") (RE.seq spaceStar (rstr "ware")), "Q98807132", false⟩,
  ⟨rstr "photogravure", "Q23657361", false⟩,
  ⟨rstr "plaster", "Q274988", false⟩,
  ⟨rstr "porcelain", "Q130693", false⟩,
  ⟨RE.seq (rstr "portland")
      (RE.seq RE.spacePlus (RE.seq (RE.alt RE.eps (rstr "lime")) (rstr "stone"))),
    "Q82337", false⟩,
  ⟨rstr "silkscreen", "Q187791", false⟩,
  ⟨RE.seq (rstr "screen") (RE.seq spaceOpt (rstr "print")), "Q22569957", false⟩,
  ⟨rstr "slate", "Q207079", false⟩,
  ⟨rstr "tempera", "Q175166", true⟩,
  ⟨rstr "terracotta", "Q60424", false⟩,
  ⟨rstr "varnish", "Q81683", false⟩,
  ⟨rstr "vinyl", "xxx", false⟩,
  ⟨rstr "wash", "Q1469362", true⟩,
  ⟨RE.seq (rstr "watercolo") (RE.seq (RE.alt (RE.lit 'u') RE.eps) (RE.lit 'r')),
    "Q22915256", true⟩,
  ⟨rstr "wax", "Q69158", false⟩,
  ⟨rstr "paint", "Q174219", true⟩]

/-- The surfaces table of wk_load_media.py lines 664-682, in
declaration order. -/
def surfaces : List SurfaceRule := [
  ⟨rstr "canvas", "Q12321255"⟩,
  ⟨rstr "cardboard", "Q389782"⟩,
  ⟨rstr "board", "Q18668582"⟩,
  ⟨rstr "card", "Q6432723"⟩,
  ⟨rstr "newsprint", "Q187046"⟩,
  ⟨rstr "panel", "Q1348059"⟩,
  ⟨wsp (rstr "photographic") (rstr "paper"), "Q912760"⟩,
  ⟨rstr "handmade paper", "Q65769963"⟩,
  ⟨wsp (rstr "laid") (rstr "paper"), "Q1513685"⟩,
  ⟨wsp (rstr "wove") (rstr "paper"), "Q21279007"⟩,
  ⟨rstr "paper", "Q11472"⟩,
  ⟨rstr "parchment", "Q226697"⟩,
  ⟨rstr "silk", "Q37681"⟩,
  ⟨rstr "steel", "Q11427"⟩,
  ⟨rstr "vellum", "Q378274"⟩,
  ⟨rstr "vinyl", "Q1812439"⟩,
  ⟨rstr "wood", "Q287"⟩]

/-- Python-dict assignment d[k] = v: update in place when the key
exists (keeping its position), else append. -/
def dictSet : List (String × Bool) → String → Bool → List (String × Bool)
  | [], k, v => [(k, v)]
  | (k1, v1) :: d, k, v =>
      if k1 = k then (k1, v) :: d else (k1, v1) :: dictSet d k v

/-- Python-dict membership k in d. -/
def dictHas : List (String × Bool) → String → Bool
  | [], _ => false
  | (k1, _) :: d, k => k1 = k || dictHas d k

/-- Python-dict read d.get(k). -/
def dictLookup : List (String × Bool) → String → Option Bool
  | [], _ => none
  | (k1, v1) :: d, k => if k1 = k then some v1 else dictLookup d k

/-- The per-call mutable state of get_medium_poperties: the working
copy medium_text, the local flag paint, and the result dict
properties. -/
structure ExtState where
  text : List Char
  paint : Bool
  props : List (String × Bool)
  deriving Repr

/-- Phase 1 (lines 555-565): iterate the media table; on a
word-boundary match remove all occurrences of the pattern, for paint
rules also strip the word paint and set the flag, and add the Qid with
value False when absent. -/
def phase1 : List MediumRule → ExtState → ExtState
  | [], st => st
  | m :: rest, st =>
    if re_search (bpat m.medium) st.text then
      let t1 := re_sub m.medium st.text
      let t2 := if m.paint then re_sub (rstr "paint") t1 else t1
      let pt := if m.paint then true else st.paint
      let pr := if dictHas st.props m.qid then st.props else dictSet st.props m.qid false
      phase1 rest ⟨t2, pt, pr⟩
    else phase1 rest st

/-- Phase 2 (lines 567-575): first surface whose (^|\s)on\s+surface
construction matches; remove the matched spans, record the Qid with
the paint flag, and break. -/
def phase2 : List SurfaceRule → ExtState → ExtState
  | [], st => st
  | s :: rest, st =>
    if re_search (onPat s.surface) st.text then
      ⟨re_sub (onPat s.surface) st.text, st.paint, dictSet st.props s.qid st.paint⟩
    else phase2 rest st

/-- Phase 3 (lines 576-579): every surface whose bare pattern still
matches is recorded with flag False and its pattern removed. -/
def phase3 : List SurfaceRule → ExtState → ExtState
  | [], st => st
  | s :: rest, st =>
    if re_search (bpat s.surface) st.text then
      phase3 rest ⟨re_sub s.surface st.text, st.paint, dictSet st.props s.qid false⟩
    else phase3 rest st

/-- get_medium_poperties (lines 550-581): run the three phases over a
fresh working copy of the input, starting from an empty dict and
paint = False. -/
def get_medium_poperties (s : String) : List (String × Bool) :=
  (phase3 surfaces (phase2 surfaces (phase1 media ⟨s.data, false, []⟩))).props

/-- The normalized inception value: the combinations of the metadata
keys inception / inceptionstart / inceptionend / inceptioncirca /
inceptionafter produced by lines 368-392. -/
inductive Inception where
  | exact (y : Nat)           -- inception
  | exactApprox (y : Nat)     -- inception + inceptioncirca
  | exactAfter (y : Nat)      -- inception + inceptionafter
  | range (a b : Nat)         -- inceptionstart + inceptionend
  | rangeApprox (a b : Nat)   -- inceptionstart + inceptionend + inceptioncirca
  deriving Repr, DecidableEq

/-- Outcome of the date block of lines 345-395: empty text sets no
inception fields and keeps the record; unmatched non-empty text makes
the generator skip the record (the UnparseableDate rejection). -/
inductive DateResult where
  | noInception
  | parsed (i : Inception)
  | unparseable
  deriving Repr, DecidableEq

/-- Digit value of a digit character (int() on one character). -/
def digitVal (c : Char) : Nat := c.toNat - 48

/-- Group (\d\d): two digit characters read as a number. -/
def p2 : List Char → Option (Nat × List Char)
  | a :: b :: r =>
      if a.isDigit && b.isDigit then some (10 * digitVal a + digitVal b, r) else none
  | _ => none

/-- Group (\d\d\d\d): four digit characters read as a number. -/
def p4 : List Char → Option (Nat × List Char)
  | a :: b :: c :: d :: r =>
      if a.isDigit && b.isDigit && c.isDigit && d.isDigit then
        some (1000 * digitVal a + 100 * digitVal b + 10 * digitVal c + digitVal d, r)
      else none
  | _ => none

/-- \s* : drop leading whitespace (greedy; every use in the date
regexes is followed by a non-space token, so this is exact). -/
def skipSp : List Char → List Char
  | c :: r => if isSpaceCh c then skipSp r else c :: r
  | [] => []

/-- Case-sensitive literal character. -/
def pCh (p : Char) : List Char → Option (List Char)
  | c :: l => if c == p then some l else none
  | [] => none

/-- Case-sensitive literal sequence. -/
def pStr : List Char → List Char → Option (List Char)
  | [], l => some l
  | p :: ps, c :: l => if c == p then pStr ps l else none
  | _ :: _, [] => none

/-- Case-insensitive literal sequence (re.I, pattern already lower
case in the source). -/
def pStrCI : List Char → List Char → Option (List Char)
  | [], l => some l
  | p :: ps, c :: l => if eqCI c p then pStrCI ps l else none
  | _ :: _, [] => none

/-- The anchor $ of these Python patterns: end of string, or just
before a single trailing newline. -/
def atEnd : List Char → Bool
  | [] => true
  | [c] => c == '\n'
  | _ => false

/-- r"^(\d\d\d\d)$" (line 350). -/
def dateMatch (l : List Char) : Option Nat :=
  match p4 l with
  | some (y, r) => if atEnd r then some y else none
  | none => none

/-- The tail \s*(\d\d\d\d)$ shared by the circa alternatives (line
351) and the after and between patterns (lines 353-354). -/
def yearEnd (l : List Char) : Option Nat :=
  match p4 (skipSp l) with
  | some (y, r) => if atEnd r then some y else none
  | none => none

/-- r"^(c\.|circa)\s*(\d\d\d\d)$" (line 351), case-sensitive; the
alternatives diverge at their second character, so trying c. first is
exact. -/
def dateCircaMatch (l : List Char) : Option Nat :=
  match pStr ['c', '.'] l with
  | some r => yearEnd r
  | none =>
    match pStr ['c', 'i', 'r', 'c', 'a'] l with
    | some r => yearEnd r
    | none => none

/-- (\d\d\d\d)\s*-\s*(\d\d\d\d)$ , the body shared by the period and
circa-period patterns (lines 352 and 356). -/
def periodCore (l : List Char) : Option (Nat × Nat) :=
  match p4 l with
  | some (y1, r1) =>
    match pCh '-' (skipSp r1) with
    | some r2 =>
      match p4 (skipSp r2) with
      | some (y2, r3) => if atEnd r3 then some (y1, y2) else none
      | none => none
    | none => none
  | none => none

/-- r"^(\d\d\d\d)\s*-\s*(\d\d\d\d)$" (line 352). -/
def periodMatch (l : List Char) : Option (Nat × Nat) :=
  periodCore l

/-- r"^between\s*(\d\d\d\d)\s*and\s*(\d\d\d\d)$" with re.I (lines 353
and 362). -/
def betweenMatch (l : List Char) : Option (Nat × Nat) :=
  match pStrCI ['b', 'e', 't', 'w', 'e', 'e', 'n'] l with
  | some r =>
    match p4 (skipSp r) with
    | some (y1, r1) =>
      match pStrCI ['a', 'n', 'd'] (skipSp r1) with
      | some r2 =>
        match yearEnd r2 with
        | some y2 => some (y1, y2)
        | none => none
      | none => none
    | none => none
  | none => none

/-- r"^after\s*(\d\d\d\d)$" with re.I (lines 354 and 363). -/
def afterMatch (l : List Char) : Option Nat :=
  match pStrCI ['a', 'f', 't', 'e', 'r'] l with
  | some r => yearEnd r
  | none => none

/-- r"^c\.\s*(\d\d\d\d)\s*-\s*(\d\d\d\d)$" (line 356). -/
def circaPeriodMatch (l : List Char) : Option (Nat × Nat) :=
  match pStr ['c', '.'] l with
  | some r => periodCore (skipSp r)
  | none => none

/-- (\d\d)(\d\d)\s*-\s*(\d\d)$ , the body shared by the short-period
patterns (lines 355 and 357); the successive groups g1 g2 and g1 g3
are concatenated and read as numbers (lines 387-391). -/
def shortCore (l : List Char) : Option (Nat × Nat) :=
  match p2 l with
  | some (g1, r1) =>
    match p2 r1 with
    | some (g2, r2) =>
      match pCh '-' (skipSp r2) with
      | some r3 =>
        match p2 (skipSp r3) with
        | some (g3, r4) =>
            if atEnd r4 then some (100 * g1 + g2, 100 * g1 + g3) else none
        | none => none
      | none => none
    | none => none
  | none => none

/-- r"^(\d\d)(\d\d)\s*-\s*(\d\d)$" (line 355). -/
def shortPeriodMatch (l : List Char) : Option (Nat × Nat) :=
  shortCore l

/-- r"^c\.\s*(\d\d)(\d\d)\s*-\s*(\d\d)$" (line 357). -/
def circaShortPeriodMatch (l : List Char) : Option (Nat × Nat) :=
  match pStr ['c', '.'] l with
  | some r => shortCore (skipSp r)
  | none => none

/-- The date block of lines 345-395: empty text produces no inception;
otherwise the eight patterns are tried in the elif order of lines
368-392, and a non-empty text matching none of them rejects the
record. -/
def normalize_date (s : String) : DateResult :=
  if s.data.isEmpty then DateResult.noInception
  else
    match dateMatch s.data with
    | some y => DateResult.parsed (Inception.exact y)
    | none =>
      match dateCircaMatch s.data with
      | some y => DateResult.parsed (Inception.exactApprox y)
      | none =>
        match periodMatch s.data with
        | some (a, b) => DateResult.parsed (Inception.range a b)
        | none =>
          match betweenMatch s.data with
          | some (a, b) => DateResult.parsed (Inception.range a b)
          | none =>
            match afterMatch s.data with
            | some y => DateResult.parsed (Inception.exactAfter y)
            | none =>
              match circaPeriodMatch s.data with
              | some (a, b) => DateResult.parsed (Inception.rangeApprox a b)
              | none =>
                match shortPeriodMatch s.data with
                | some (a, b) => DateResult.parsed (Inception.range a b)
                | none =>
                  match circaShortPeriodMatch s.data with
                  | some (a, b) => DateResult.parsed (Inception.rangeApprox a b)
                  | none => DateResult.unparseable

/-- The ten decimal digit characters, in value order. -/
def decDigits : List Char := ['0', '1', '2', '3', '4', '5', '6', '7', '8', '9']

/-- The digit character of a decimal digit; out-of-range values also
give a digit character, so digit-ness facts need no side condition. -/
def dch (d : Nat) : Char := decDigits.getD d '0'

theorem dch_big (d : Nat) (h : 10 ≤ d) : dch d = '0' := by
  rw [dch]
  exact List.getD_eq_default _ _ (by simpa [decDigits] using h)

theorem dch_isDigit (d : Nat) : (dch d).isDigit = true := by
  rcases Nat.lt_or_ge d 10 with h | h
  · interval_cases d <;> rfl
  · rw [dch_big d h]
    rfl

theorem digitVal_dch (d : Nat) (h : d < 10) : digitVal (dch d) = d := by
  interval_cases d <;> rfl

theorem isSpaceCh_dch (d : Nat) : isSpaceCh (dch d) = false := by
  rcases Nat.lt_or_ge d 10 with h | h
  · interval_cases d <;> rfl
  · rw [dch_big d h]
    rfl

theorem dch_beq_c (d : Nat) : (dch d == 'c') = false := by
  rcases Nat.lt_or_ge d 10 with h | h
  · interval_cases d <;> rfl
  · rw [dch_big d h]
    rfl

theorem eqCI_dch_b (d : Nat) : eqCI (dch d) 'b' = false := by
  rcases Nat.lt_or_ge d 10 with h | h
  · interval_cases d <;> rfl
  · rw [dch_big d h]
    rfl

theorem eqCI_dch_a (d : Nat) : eqCI (dch d) 'a' = false := by
  rcases Nat.lt_or_ge d 10 with h | h
  · interval_cases d <;> rfl
  · rw [dch_big d h]
    rfl

theorem p4_dch (a b c d : Nat) (r : List Char)
    (ha : a < 10) (hb : b < 10) (hc : c < 10) (hd : d < 10) :
    p4 (dch a :: dch b :: dch c :: dch d :: r) =
      some (1000 * a + 100 * b + 10 * c + d, r) := by
  simp [p4, dch_isDigit, digitVal_dch a ha, digitVal_dch b hb,
    digitVal_dch c hc, digitVal_dch d hd]

theorem p2_dch (a b : Nat) (r : List Char) (ha : a < 10) (hb : b < 10) :
    p2 (dch a :: dch b :: r) = some (10 * a + b, r) := by
  simp [p2, dch_isDigit, digitVal_dch a ha, digitVal_dch b hb]

theorem skipSp_dch (d : Nat) (r : List Char) : skipSp (dch d :: r) = dch d :: r := by
  simp [skipSp, isSpaceCh_dch]

theorem skipSp_replicate (n : Nat) (l : List Char) :
    skipSp (List.replicate n ' ' ++ l) = skipSp l := by
  induction n with
  | zero => rfl
  | succ n ih => simpa [List.replicate_succ, skipSp] using ih

theorem atEnd_len (l : List Char) (h : 2 ≤ l.length) : atEnd l = false := by
  rcases l with _ | ⟨a, _ | ⟨b, t⟩⟩
  · simp at h
  · simp at h
  · rfl

theorem pStr_cdot_dch (d : Nat) (l : List Char) :
    pStr ['c', '.'] (dch d :: l) = none := by
  simp [pStr, dch_beq_c]

theorem pStr_circa_dch (d : Nat) (l : List Char) :
    pStr ['c', 'i', 'r', 'c', 'a'] (dch d :: l) = none := by
  simp [pStr, dch_beq_c]

theorem pStrCI_between_dch (d : Nat) (l : List Char) :
    pStrCI ['b', 'e', 't', 'w', 'e', 'e', 'n'] (dch d :: l) = none := by
  simp [pStrCI, eqCI_dch_b]

theorem pStrCI_after_dch (d : Nat) (l : List Char) :
    pStrCI ['a', 'f', 't', 'e', 'r'] (dch d :: l) = none := by
  simp [pStrCI, eqCI_dch_a]

theorem skipSp_dash (l : List Char) : skipSp ('-' :: l) = '-' :: l := rfl

theorem p4_pair (x y : Char) : p4 [x, y] = none := rfl

theorem pCh_dash (l : List Char) : pCh '-' ('-' :: l) = some l := rfl

theorem yearEnd_space (l : List Char) : yearEnd (' ' :: l) = yearEnd l := rfl

theorem yearEnd_dch (a b c d : Nat) (ha : a < 10) (hb : b < 10) (hc : c < 10) (hd : d < 10) :
    yearEnd [dch a, dch b, dch c, dch d] = some (1000 * a + 100 * b + 10 * c + d) := by
  simp only [yearEnd, skipSp_dch, p4_dch a b c d [] ha hb hc hd, atEnd, if_true]

/-- Any text of shape YYYY whitespace - whitespace YYYY is parsed by
the period pattern of line 352 into the two years in written order. -/
theorem normalize_period_spaces (a b c d e f g h n m : Nat)
    (ha : a < 10) (hb : b < 10) (hc : c < 10) (hd : d < 10)
    (he : e < 10) (hf : f < 10) (hg : g < 10) (hh : h < 10) :
    normalize_date ⟨dch a :: dch b :: dch c :: dch d ::
        (List.replicate n ' ' ++ '-' :: (List.replicate m ' ' ++ [dch e, dch f, dch g, dch h]))⟩ =
      DateResult.parsed (Inception.range (1000 * a + 100 * b + 10 * c + d)
        (1000 * e + 100 * f + 10 * g + h)) := by
  set X : List Char :=
    List.replicate n ' ' ++ '-' :: (List.replicate m ' ' ++ [dch e, dch f, dch g, dch h]) with hX
  have hXlen : 2 ≤ X.length := by
    simp [hX, List.length_append, List.length_replicate]
    omega
  have hdate : dateMatch (dch a :: dch b :: dch c :: dch d :: X) = none := by
    simp [dateMatch, p4_dch a b c d _ ha hb hc hd, atEnd_len X hXlen]
  have hcirca : dateCircaMatch (dch a :: dch b :: dch c :: dch d :: X) = none := by
    simp [dateCircaMatch, pStr_cdot_dch, pStr_circa_dch]
  have hperiod : periodMatch (dch a :: dch b :: dch c :: dch d :: X) =
      some (1000 * a + 100 * b + 10 * c + d, 1000 * e + 100 * f + 10 * g + h) := by
    simp only [periodMatch, periodCore, p4_dch a b c d _ ha hb hc hd, hX,
      skipSp_replicate, skipSp_dash, pCh_dash, skipSp_dch,
      p4_dch e f g h _ he hf hg hh, atEnd, if_true]
  simp [normalize_date, hdate, hcirca, hperiod]

theorem p4_head (c : Char) (l : List Char) (hc : c.isDigit = false) : p4 (c :: l) = none := by
  rcases l with _ | ⟨x, _ | ⟨y, _ | ⟨z, r⟩⟩⟩ <;> simp [p4, hc]

theorem p2_head (c : Char) (l : List Char) (hc : c.isDigit = false) : p2 (c :: l) = none := by
  rcases l with _ | ⟨x, r⟩ <;> simp [p2, hc]

theorem pStr_head (p : Char) (ps : List Char) (c : Char) (l : List Char)
    (h : (c == p) = false) : pStr (p :: ps) (c :: l) = none := by
  simp [pStr, h]

theorem pStrCI_head (p : Char) (ps : List Char) (c : Char) (l : List Char)
    (h : eqCI c p = false) : pStrCI (p :: ps) (c :: l) = none := by
  simp [pStrCI, h]

theorem skipSp_sp_dch (d : Nat) (r : List Char) : skipSp (' ' :: dch d :: r) = dch d :: r := by
  rw [show skipSp (' ' :: dch d :: r) = skipSp (dch d :: r) from rfl, skipSp_dch]

/-- Text of shape CCYY-YY is parsed by the short-period pattern of
line 355, the end year rebuilt from the century digits of the start
(lines 387-388). -/
theorem short_period_parse (a b c d e f : Nat)
    (ha : a < 10) (hb : b < 10) (hc : c < 10) (hd : d < 10) (he : e < 10) (hf : f < 10) :
    normalize_date ⟨[dch a, dch b, dch c, dch d, '-', dch e, dch f]⟩ =
      DateResult.parsed (Inception.range (1000 * a + 100 * b + 10 * c + d)
        (1000 * a + 100 * b + 10 * e + f)) := by
  have hdate : dateMatch [dch a, dch b, dch c, dch d, '-', dch e, dch f] = none := by
    simp [dateMatch, p4_dch a b c d _ ha hb hc hd, atEnd]
  have hcirca : dateCircaMatch [dch a, dch b, dch c, dch d, '-', dch e, dch f] = none := by
    simp [dateCircaMatch, pStr_cdot_dch, pStr_circa_dch]
  have hperiod : periodMatch [dch a, dch b, dch c, dch d, '-', dch e, dch f] = none := by
    simp only [periodMatch, periodCore, p4_dch a b c d _ ha hb hc hd, skipSp_dash,
      pCh_dash, skipSp_dch, p4_pair]
  have hbetween : betweenMatch [dch a, dch b, dch c, dch d, '-', dch e, dch f] = none := by
    simp [betweenMatch, pStrCI_between_dch]
  have hafter : afterMatch [dch a, dch b, dch c, dch d, '-', dch e, dch f] = none := by
    simp [afterMatch, pStrCI_after_dch]
  have hcp : circaPeriodMatch [dch a, dch b, dch c, dch d, '-', dch e, dch f] = none := by
    simp [circaPeriodMatch, pStr_cdot_dch]
  have hshort : shortPeriodMatch [dch a, dch b, dch c, dch d, '-', dch e, dch f] =
      some (1000 * a + 100 * b + 10 * c + d, 1000 * a + 100 * b + 10 * e + f) := by
    simp only [shortPeriodMatch, shortCore, p2_dch a b _ ha hb, p2_dch c d _ hc hd,
      p2_dch e f _ he hf, skipSp_dash, pCh_dash, skipSp_dch, atEnd, if_true]
    simp only [Option.some.injEq, Prod.mk.injEq]
    omega
  simp [normalize_date, hdate, hcirca, hperiod, hbetween, hafter, hcp, hshort]

/-- Text of shape between YYYY and YYYY (lower case) is parsed by the
between pattern of line 353 into the two years in written order. -/
theorem between_parse (a b c d e f g h : Nat)
    (ha : a < 10) (hb : b < 10) (hc : c < 10) (hd : d < 10)
    (he : e < 10) (hf : f < 10) (hg : g < 10) (hh : h < 10) :
    normalize_date ⟨'b' :: 'e' :: 't' :: 'w' :: 'e' :: 'e' :: 'n' :: ' ' :: dch a :: dch b ::
        dch c :: dch d :: ' ' :: 'a' :: 'n' :: 'd' :: ' ' :: [dch e, dch f, dch g, dch h]⟩ =
      DateResult.parsed (Inception.range (1000 * a + 100 * b + 10 * c + d)
        (1000 * e + 100 * f + 10 * g + h)) := by
  have hstep : ∀ l, betweenMatch ('b' :: 'e' :: 't' :: 'w' :: 'e' :: 'e' :: 'n' :: ' ' :: l) =
      (match p4 (skipSp l) with
       | some (y1, r1) =>
         match pStrCI ['a', 'n', 'd'] (skipSp r1) with
         | some r2 =>
           match yearEnd r2 with
           | some y2 => some (y1, y2)
           | none => none
         | none => none
       | none => none) := fun _ => rfl
  have hand : ∀ l, pStrCI ['a', 'n', 'd'] ('a' :: 'n' :: 'd' :: l) = some l := fun _ => rfl
  have hska : ∀ l, skipSp (' ' :: 'a' :: l) = 'a' :: l := fun _ => rfl
  have hd0 : dateMatch ('b' :: 'e' :: 't' :: 'w' :: 'e' :: 'e' :: 'n' :: ' ' :: dch a :: dch b ::
      dch c :: dch d :: ' ' :: 'a' :: 'n' :: 'd' :: ' ' :: [dch e, dch f, dch g, dch h]) =
      none := rfl
  have hc0 : dateCircaMatch ('b' :: 'e' :: 't' :: 'w' :: 'e' :: 'e' :: 'n' :: ' ' :: dch a ::
      dch b :: dch c :: dch d :: ' ' :: 'a' :: 'n' :: 'd' :: ' ' ::
        [dch e, dch f, dch g, dch h]) = none := rfl
  have hp0 : periodMatch ('b' :: 'e' :: 't' :: 'w' :: 'e' :: 'e' :: 'n' :: ' ' :: dch a ::
      dch b :: dch c :: dch d :: ' ' :: 'a' :: 'n' :: 'd' :: ' ' ::
        [dch e, dch f, dch g, dch h]) = none := rfl
  have hbet : betweenMatch ('b' :: 'e' :: 't' :: 'w' :: 'e' :: 'e' :: 'n' :: ' ' :: dch a ::
      dch b :: dch c :: dch d :: ' ' :: 'a' :: 'n' :: 'd' :: ' ' ::
        [dch e, dch f, dch g, dch h]) =
      some (1000 * a + 100 * b + 10 * c + d, 1000 * e + 100 * f + 10 * g + h) := by
    rw [hstep]
    simp only [skipSp_dch, p4_dch a b c d _ ha hb hc hd, hska, hand, yearEnd_space,
      yearEnd_dch e f g h he hf hg hh]
  simp [normalize_date, hd0, hc0, hp0, hbet]

/-- Text of shape c. YYYY-YYYY is parsed by the circa-period pattern
of line 356 into the two years in written order. -/
theorem circa_period_parse (a b c d e f g h : Nat)
    (ha : a < 10) (hb : b < 10) (hc : c < 10) (hd : d < 10)
    (he : e < 10) (hf : f < 10) (hg : g < 10) (hh : h < 10) :
    normalize_date ⟨'c' :: '.' :: ' ' :: dch a :: dch b :: dch c :: dch d :: '-' ::
        [dch e, dch f, dch g, dch h]⟩ =
      DateResult.parsed (Inception.rangeApprox (1000 * a + 100 * b + 10 * c + d)
        (1000 * e + 100 * f + 10 * g + h)) := by
  have hd0 : dateMatch ('c' :: '.' :: ' ' :: dch a :: dch b :: dch c :: dch d :: '-' ::
      [dch e, dch f, dch g, dch h]) = none := rfl
  have hcir : dateCircaMatch ('c' :: '.' :: ' ' :: dch a :: dch b :: dch c :: dch d :: '-' ::
      [dch e, dch f, dch g, dch h]) = none := by
    rw [show dateCircaMatch ('c' :: '.' :: ' ' :: dch a :: dch b :: dch c :: dch d :: '-' ::
        [dch e, dch f, dch g, dch h]) =
      yearEnd (' ' :: dch a :: dch b :: dch c :: dch d :: '-' ::
        [dch e, dch f, dch g, dch h]) from rfl, yearEnd_space]
    simp [yearEnd, skipSp_dch, p4_dch a b c d _ ha hb hc hd, atEnd]
  have hp0 : periodMatch ('c' :: '.' :: ' ' :: dch a :: dch b :: dch c :: dch d :: '-' ::
      [dch e, dch f, dch g, dch h]) = none := rfl
  have hb0 : betweenMatch ('c' :: '.' :: ' ' :: dch a :: dch b :: dch c :: dch d :: '-' ::
      [dch e, dch f, dch g, dch h]) = none := rfl
  have ha0 : afterMatch ('c' :: '.' :: ' ' :: dch a :: dch b :: dch c :: dch d :: '-' ::
      [dch e, dch f, dch g, dch h]) = none := rfl
  have hcp : circaPeriodMatch ('c' :: '.' :: ' ' :: dch a :: dch b :: dch c :: dch d :: '-' ::
      [dch e, dch f, dch g, dch h]) =
      some (1000 * a + 100 * b + 10 * c + d, 1000 * e + 100 * f + 10 * g + h) := by
    rw [show circaPeriodMatch ('c' :: '.' :: ' ' :: dch a :: dch b :: dch c :: dch d :: '-' ::
        [dch e, dch f, dch g, dch h]) =
      periodCore (skipSp (' ' :: dch a :: dch b :: dch c :: dch d :: '-' ::
        [dch e, dch f, dch g, dch h])) from rfl, skipSp_sp_dch]
    simp only [periodCore, p4_dch a b c d _ ha hb hc hd, skipSp_dash, pCh_dash, skipSp_dch,
      p4_dch e f g h _ he hf hg hh, atEnd, if_true]
  simp [normalize_date, hd0, hcir, hp0, hb0, ha0, hcp]

/-- Text of shape c. CCYY-YY is parsed by the circa-short pattern of
line 357, the end year rebuilt from the century digits of the start
(lines 390-391). -/
theorem circa_short_parse (a b c d e f : Nat)
    (ha : a < 10) (hb : b < 10) (hc : c < 10) (hd : d < 10) (he : e < 10) (hf : f < 10) :
    normalize_date ⟨'c' :: '.' :: ' ' :: dch a :: dch b :: dch c :: dch d :: '-' ::
        [dch e, dch f]⟩ =
      DateResult.parsed (Inception.rangeApprox (1000 * a + 100 * b + 10 * c + d)
        (1000 * a + 100 * b + 10 * e + f)) := by
  have hd0 : dateMatch ('c' :: '.' :: ' ' :: dch a :: dch b :: dch c :: dch d :: '-' ::
      [dch e, dch f]) = none := rfl
  have hcir : dateCircaMatch ('c' :: '.' :: ' ' :: dch a :: dch b :: dch c :: dch d :: '-' ::
      [dch e, dch f]) = none := by
    rw [show dateCircaMatch ('c' :: '.' :: ' ' :: dch a :: dch b :: dch c :: dch d :: '-' ::
        [dch e, dch f]) =
      yearEnd (' ' :: dch a :: dch b :: dch c :: dch d :: '-' :: [dch e, dch f]) from rfl,
      yearEnd_space]
    simp [yearEnd, skipSp_dch, p4_dch a b c d _ ha hb hc hd, atEnd]
  have hp0 : periodMatch ('c' :: '.' :: ' ' :: dch a :: dch b :: dch c :: dch d :: '-' ::
      [dch e, dch f]) = none := rfl
  have hb0 : betweenMatch ('c' :: '.' :: ' ' :: dch a :: dch b :: dch c :: dch d :: '-' ::
      [dch e, dch f]) = none := rfl
  have ha0 : afterMatch ('c' :: '.' :: ' ' :: dch a :: dch b :: dch c :: dch d :: '-' ::
      [dch e, dch f]) = none := rfl
  have hcp : circaPeriodMatch ('c' :: '.' :: ' ' :: dch a :: dch b :: dch c :: dch d :: '-' ::
      [dch e, dch f]) = none := by
    rw [show circaPeriodMatch ('c' :: '.' :: ' ' :: dch a :: dch b :: dch c :: dch d :: '-' ::
        [dch e, dch f]) =
      periodCore (skipSp (' ' :: dch a :: dch b :: dch c :: dch d :: '-' ::
        [dch e, dch f])) from rfl, skipSp_sp_dch]
    simp only [periodCore, p4_dch a b c d _ ha hb hc hd, skipSp_dash, pCh_dash, skipSp_dch,
      p4_pair]
  have hs0 : shortPeriodMatch ('c' :: '.' :: ' ' :: dch a :: dch b :: dch c :: dch d :: '-' ::
      [dch e, dch f]) = none := rfl
  have hcs : circaShortPeriodMatch ('c' :: '.' :: ' ' :: dch a :: dch b :: dch c :: dch d ::
      '-' :: [dch e, dch f]) =
      some (1000 * a + 100 * b + 10 * c + d, 1000 * a + 100 * b + 10 * e + f) := by
    rw [show circaShortPeriodMatch ('c' :: '.' :: ' ' :: dch a :: dch b :: dch c :: dch d ::
        '-' :: [dch e, dch f]) =
      shortCore (skipSp (' ' :: dch a :: dch b :: dch c :: dch d :: '-' ::
        [dch e, dch f])) from rfl, skipSp_sp_dch]
    simp only [shortCore, p2_dch a b _ ha hb, p2_dch c d _ hc hd, skipSp_dash, pCh_dash,
      skipSp_dch, p2_dch e f _ he hf, atEnd, if_true, Option.some.injEq, Prod.mk.injEq]
    omega
  simp [normalize_date, hd0, hcir, hp0, hb0, ha0, hcp, hs0, hcs]

/-- Left anchoring: an input whose first character is not a digit, not
the letter c, and matches neither b nor a case-insensitively can start
none of the eight patterns and is rejected whatever follows. -/
theorem left_anchor_unparseable (c0 : Char) (l : List Char)
    (h1 : c0.isDigit = false) (h2 : (c0 == 'c') = false)
    (h3 : eqCI c0 'b' = false) (h4 : eqCI c0 'a' = false) :
    normalize_date ⟨c0 :: l⟩ = DateResult.unparseable := by
  have hd : dateMatch (c0 :: l) = none := by simp [dateMatch, p4_head c0 l h1]
  have hc : dateCircaMatch (c0 :: l) = none := by
    simp [dateCircaMatch, pStr_head _ _ _ _ h2]
  have hp : periodMatch (c0 :: l) = none := by
    simp [periodMatch, periodCore, p4_head c0 l h1]
  have hb : betweenMatch (c0 :: l) = none := by
    simp [betweenMatch, pStrCI_head _ _ _ _ h3]
  have ha : afterMatch (c0 :: l) = none := by
    simp [afterMatch, pStrCI_head _ _ _ _ h4]
  have hcp : circaPeriodMatch (c0 :: l) = none := by
    simp [circaPeriodMatch, pStr_head _ _ _ _ h2]
  have hs : shortPeriodMatch (c0 :: l) = none := by
    simp [shortPeriodMatch, shortCore, p2_head c0 l h1]
  have hcs : circaShortPeriodMatch (c0 :: l) = none := by
    simp [circaShortPeriodMatch, pStr_head _ _ _ _ h2]
  simp [normalize_date, hd, hc, hp, hb, ha, hcp, hs, hcs]

/-- Right anchoring: a four-digit year followed by trailing text is
rejected whenever the text is neither empty nor a lone newline and,
after optional whitespace, does not open the hyphen of a range. -/
theorem right_anchor_unparseable (a b c d : Nat) (t : List Char)
    (ha : a < 10) (hb : b < 10) (hc : c < 10) (hd : d < 10)
    (hend : atEnd t = false) (hdash : pCh '-' (skipSp t) = none) :
    normalize_date ⟨dch a :: dch b :: dch c :: dch d :: t⟩ = DateResult.unparseable := by
  have hd0 : dateMatch (dch a :: dch b :: dch c :: dch d :: t) = none := by
    simp [dateMatch, p4_dch a b c d t ha hb hc hd, hend]
  have hc0 : dateCircaMatch (dch a :: dch b :: dch c :: dch d :: t) = none := by
    simp [dateCircaMatch, pStr_cdot_dch, pStr_circa_dch]
  have hp0 : periodMatch (dch a :: dch b :: dch c :: dch d :: t) = none := by
    simp [periodMatch, periodCore, p4_dch a b c d t ha hb hc hd, hdash]
  have hb0 : betweenMatch (dch a :: dch b :: dch c :: dch d :: t) = none := by
    simp [betweenMatch, pStrCI_between_dch]
  have ha0 : afterMatch (dch a :: dch b :: dch c :: dch d :: t) = none := by
    simp [afterMatch, pStrCI_after_dch]
  have hcp0 : circaPeriodMatch (dch a :: dch b :: dch c :: dch d :: t) = none := by
    simp [circaPeriodMatch, pStr_cdot_dch]
  have hs0 : shortPeriodMatch (dch a :: dch b :: dch c :: dch d :: t) = none := by
    simp [shortPeriodMatch, shortCore, p2_dch a b _ ha hb, p2_dch c d _ hc hd, hdash]
  have hcs0 : circaShortPeriodMatch (dch a :: dch b :: dch c :: dch d :: t) = none := by
    simp [circaShortPeriodMatch, pStr_cdot_dch]
  simp [normalize_date, hd0, hc0, hp0, hb0, ha0, hcp0, hs0, hcs0]

/-- A four-digit year followed by one newline still parses as the bare
year: the dollar anchor of the Python patterns accepts one trailing
newline. -/
theorem year_trailing_newline (a b c d : Nat)
    (ha : a < 10) (hb : b < 10) (hc : c < 10) (hd : d < 10) :
    normalize_date ⟨[dch a, dch b, dch c, dch d, '\n']⟩ =
      DateResult.parsed (Inception.exact (1000 * a + 100 * b + 10 * c + d)) := by
  have hd0 : dateMatch [dch a, dch b, dch c, dch d, '\n'] =
      some (1000 * a + 100 * b + 10 * c + d) := by
    simp [dateMatch, p4_dch a b c d ['\n'] ha hb hc hd, atEnd]
  simp [normalize_date, hd0]

theorem dictLookup_dictSet (d : List (String × Bool)) (k q : String) (v : Bool) :
    dictLookup (dictSet d k v) q = if k = q then some v else dictLookup d q := by
  induction d with
  | nil => by_cases h : k = q <;> simp [dictSet, dictLookup, h]
  | cons p tl ih =>
    rcases p with ⟨k1, v1⟩
    by_cases h1 : k1 = k
    · by_cases h2 : k = q <;> simp [dictSet, dictLookup, h1, h2]
    · by_cases h2 : k1 = q
      · have h3 : ¬ k = q := fun hkq => h1 (h2.symm ▸ hkq.symm ▸ rfl)
        have h4 : ¬ q = k := fun hqk => h3 hqk.symm
        simp [dictSet, dictLookup, h1, h2, h3, h4]
      · simp [dictSet, dictLookup, h1, h2, ih]

theorem mem_dictSet (d : List (String × Bool)) (k : String) (v : Bool)
    (p : String × Bool) (hp : p ∈ dictSet d k v) : p.2 = v ∨ p ∈ d := by
  induction d with
  | nil =>
    simp [dictSet] at hp
    left
    rw [hp]
  | cons hd tl ih =>
    rcases hd with ⟨k1, v1⟩
    by_cases h1 : k1 = k
    · rw [dictSet, if_pos h1] at hp
      rcases List.mem_cons.mp hp with h | h
      · left; rw [h]
      · right; exact List.mem_cons_of_mem _ h
    · rw [dictSet, if_neg h1] at hp
      rcases List.mem_cons.mp hp with h | h
      · right; exact h ▸ List.mem_cons_self _ _
      · rcases ih h with h2 | h2
        · exact Or.inl h2
        · exact Or.inr (List.mem_cons_of_mem _ h2)

theorem dictLookup_false (d : List (String × Bool)) (q : String) (b : Bool)
    (h : ∀ p ∈ d, p.2 = false) (hq : dictLookup d q = some b) : b = false := by
  induction d with
  | nil => simp [dictLookup] at hq
  | cons hd tl ih =>
    rcases hd with ⟨k1, v1⟩
    by_cases h1 : k1 = q
    · rw [dictLookup, if_pos h1] at hq
      have hv := h (k1, v1) (List.mem_cons_self _ _)
      simp only [Option.some.injEq] at hq
      simp only at hv
      rw [← hq]
      exact hv
    · rw [dictLookup, if_neg h1] at hq
      exact ih (fun p hp => h p (List.mem_cons_of_mem _ hp)) hq

theorem phase1_props_false (rules : List MediumRule) (st : ExtState)
    (h : ∀ p ∈ st.props, p.2 = false) : ∀ p ∈ (phase1 rules st).props, p.2 = false := by
  induction rules generalizing st with
  | nil => simpa [phase1] using h
  | cons m rest ih =>
    by_cases hm : re_search (bpat m.medium) st.text
    · simp only [phase1, hm, if_true]
      apply ih
      by_cases hhas : dictHas st.props m.qid
      · simpa [hhas] using h
      · simp only [hhas, Bool.false_eq_true, if_false]
        intro p hp
        rcases mem_dictSet _ _ _ _ hp with h2 | h2
        · exact h2
        · exact h p h2
    · simp only [phase1, hm, if_false]
      exact ih st h

theorem phase2_lookup_ne (rules : List SurfaceRule) (st : ExtState) (q : String)
    (hq : ∀ s ∈ rules, s.qid ≠ q) :
    dictLookup (phase2 rules st).props q = dictLookup st.props q := by
  induction rules generalizing st with
  | nil => rfl
  | cons s rest ih =>
    by_cases hm : re_search (onPat s.surface) st.text
    · simp [phase2, hm, dictLookup_dictSet, hq s (List.mem_cons_self _ _)]
    · simp only [phase2, hm, if_false]
      exact ih _ (fun r hr => hq r (List.mem_cons_of_mem _ hr))

theorem phase3_lookup_ne (rules : List SurfaceRule) (st : ExtState) (q : String)
    (hq : ∀ s ∈ rules, s.qid ≠ q) :
    dictLookup (phase3 rules st).props q = dictLookup st.props q := by
  induction rules generalizing st with
  | nil => rfl
  | cons s rest ih =>
    by_cases hm : re_search (bpat s.surface) st.text
    · simp only [phase3, hm, if_true]
      rw [ih _ (fun r hr => hq r (List.mem_cons_of_mem _ hr))]
      simp [dictLookup_dictSet, hq s (List.mem_cons_self _ _)]
    · simp only [phase3, hm, if_false]
      exact ih _ (fun r hr => hq r (List.mem_cons_of_mem _ hr))

theorem phase1_nomatch (rules : List MediumRule) (st : ExtState)
    (h : ∀ m ∈ rules, re_search (bpat m.medium) st.text = false) : phase1 rules st = st := by
  induction rules with
  | nil => rfl
  | cons m rest ih =>
    simp only [phase1, h m (List.mem_cons_self _ _), Bool.false_eq_true, if_false]
    exact ih (fun r hr => h r (List.mem_cons_of_mem _ hr))

theorem phase2_nomatch (rules : List SurfaceRule) (st : ExtState)
    (h : ∀ r ∈ rules, re_search (onPat r.surface) st.text = false) : phase2 rules st = st := by
  induction rules with
  | nil => rfl
  | cons s rest ih =>
    simp only [phase2, h s (List.mem_cons_self _ _), Bool.false_eq_true, if_false]
    exact ih (fun r hr => h r (List.mem_cons_of_mem _ hr))

theorem phase3_nomatch (rules : List SurfaceRule) (st : ExtState)
    (h : ∀ r ∈ rules, re_search (bpat r.surface) st.text = false) : phase3 rules st = st := by
  induction rules with
  | nil => rfl
  | cons s rest ih =>
    simp only [phase3, h s (List.mem_cons_self _ _), Bool.false_eq_true, if_false]
    exact ih (fun r hr => h r (List.mem_cons_of_mem _ hr))


/-- Claim C1, counterexample: on the input oil on canvas the extractor
maps the oil identifier Q296955 to false, not to true as claimed;
phase 1 (line 565) always records material identifiers with value
False, and only the surface inherits the paint flag. -/
theorem extract_oil_on_canvas_oil_not_true :
    dictLookup (get_medium_poperties "oil on canvas") "Q296955" = some false ∧
      dictLookup (get_medium_poperties "oil on canvas") "Q296955" ≠ some true := by
  have h : dictLookup (get_medium_poperties "oil on canvas") "Q296955" = some false := by decide
  exact ⟨h, by rw [h]; simp⟩

/-- Claim C1, amended: for the input oil on canvas the extractor
returns the mapping with the oil identifier Q296955 mapped to false
and the canvas identifier Q12321255 mapped to true. -/
theorem extract_oil_on_canvas_eq :
    get_medium_poperties "oil on canvas" = [("Q296955", false), ("Q12321255", true)] := by
  decide

/-- Claim C2, counterexample: the input 1900-1800 produces the range
(1900, 1800), whose start year exceeds its end year; lines 374-375
copy the two captured years without any ordering check. -/
theorem normalize_range_order_violated :
    normalize_date "1900-1800" = DateResult.parsed (Inception.range 1900 1800) ∧
      ¬ (1900 ≤ 1800) :=
  ⟨rfl, by decide⟩

/-- Claim C2, amended: for every range-producing form - the hyphen
period, between-and, circa period, short period and circa short period
patterns - the start and end years are copied into the range in
written order (after century reconstruction for the short forms) with
no reordering and no check, so startYear is at most endYear exactly
when the first written year does not exceed the second. -/
theorem range_forms_copy_years_in_order (a b c d e f g h : Nat)
    (ha : a < 10) (hb : b < 10) (hc : c < 10) (hd : d < 10)
    (he : e < 10) (hf : f < 10) (hg : g < 10) (hh : h < 10) :
    normalize_date ⟨[dch a, dch b, dch c, dch d, '-', dch e, dch f, dch g, dch h]⟩ =
        DateResult.parsed (Inception.range (1000 * a + 100 * b + 10 * c + d)
          (1000 * e + 100 * f + 10 * g + h)) ∧
      normalize_date ⟨'b' :: 'e' :: 't' :: 'w' :: 'e' :: 'e' :: 'n' :: ' ' :: dch a :: dch b ::
          dch c :: dch d :: ' ' :: 'a' :: 'n' :: 'd' :: ' ' :: [dch e, dch f, dch g, dch h]⟩ =
        DateResult.parsed (Inception.range (1000 * a + 100 * b + 10 * c + d)
          (1000 * e + 100 * f + 10 * g + h)) ∧
      normalize_date ⟨'c' :: '.' :: ' ' :: dch a :: dch b :: dch c :: dch d :: '-' ::
          [dch e, dch f, dch g, dch h]⟩ =
        DateResult.parsed (Inception.rangeApprox (1000 * a + 100 * b + 10 * c + d)
          (1000 * e + 100 * f + 10 * g + h)) ∧
      normalize_date ⟨[dch a, dch b, dch c, dch d, '-', dch e, dch f]⟩ =
        DateResult.parsed (Inception.range (1000 * a + 100 * b + 10 * c + d)
          (1000 * a + 100 * b + 10 * e + f)) ∧
      normalize_date ⟨'c' :: '.' :: ' ' :: dch a :: dch b :: dch c :: dch d :: '-' ::
          [dch e, dch f]⟩ =
        DateResult.parsed (Inception.rangeApprox (1000 * a + 100 * b + 10 * c + d)
          (1000 * a + 100 * b + 10 * e + f)) :=
  ⟨by simpa using normalize_period_spaces a b c d e f g h 0 0 ha hb hc hd he hf hg hh,
    between_parse a b c d e f g h ha hb hc hd he hf hg hh,
    circa_period_parse a b c d e f g h ha hb hc hd he hf hg hh,
    short_period_parse a b c d e f ha hb hc hd he hf,
    circa_short_parse a b c d e f ha hb hc hd he hf⟩

/-- Claim C2, witness for the amended theorem: one instance of each of
the five range forms. -/
theorem range_forms_copy_years_in_order_witness :
    (1 : Nat) < 10 ∧
      normalize_date "1884-1886" = DateResult.parsed (Inception.range 1884 1886) ∧
      normalize_date "between 1884 and 1886" = DateResult.parsed (Inception.range 1884 1886) ∧
      normalize_date "c. 1884-1886" = DateResult.parsed (Inception.rangeApprox 1884 1886) ∧
      normalize_date "1884-86" = DateResult.parsed (Inception.range 1884 1886) ∧
      normalize_date "c. 1884-86" = DateResult.parsed (Inception.rangeApprox 1884 1886) := by
  have h := range_forms_copy_years_in_order 1 8 8 4 1 8 8 6 (by decide) (by decide)
    (by decide) (by decide) (by decide) (by decide) (by decide) (by decide)
  have h2 := range_forms_copy_years_in_order 1 8 8 4 8 6 8 6 (by decide) (by decide)
    (by decide) (by decide) (by decide) (by decide) (by decide) (by decide)
  exact ⟨by decide, h.1, h.2.1, h.2.2.1, h2.2.2.2.1, h2.2.2.2.2⟩

/-- Claim C3, counterexample: on the input oil on canvas canvas,
phase 2 records the canvas identifier Q12321255 with flag true, but
the bare mention of canvas that survives the phase-2 removal makes
phase 3 rematch the surface and overwrite the flag with false. -/
theorem phase2_surface_overwritten_by_phase3 :
    dictLookup (phase2 surfaces (phase1 media ⟨"oil on canvas canvas".data, false, []⟩)).props
        "Q12321255" = some true ∧
      dictLookup (get_medium_poperties "oil on canvas canvas") "Q12321255" = some false :=
  ⟨by decide, by decide⟩

/-- Claim C3, amended: a surface recorded by phase 2 can be matched
again by phase 3 and overwritten when a bare mention of it survives in
the working text (the counterexample exhibits this); any phase-3 write
forces the flag to false, so after phase 3 every value in the dict is
either its pre-phase-3 value or false. -/
theorem phase3_overwrite_only_false (rules : List SurfaceRule) (st : ExtState)
    (q : String) (b : Bool)
    (h : dictLookup (phase3 rules st).props q = some b) :
    b = false ∨ dictLookup st.props q = some b := by
  induction rules generalizing st with
  | nil => right; exact h
  | cons s rest ih =>
    by_cases hm : re_search (bpat s.surface) st.text
    · simp only [phase3, hm, if_true] at h
      rcases ih _ h with hb | hb
      · exact Or.inl hb
      · rw [dictLookup_dictSet] at hb
        by_cases hsq : s.qid = q
        · rw [if_pos hsq] at hb
          simp only [Option.some.injEq] at hb
          exact Or.inl hb.symm
        · rw [if_neg hsq] at hb
          exact Or.inr hb
    · simp only [phase3, hm, if_false] at h
      exact ih _ h

/-- Claim C3, witness for the amended theorem: the phase-3 pass over
the leftover text rewrites the canvas flag from true to false. -/
theorem phase3_overwrite_only_false_witness :
    dictLookup (phase3 surfaces ⟨" canvas".data, true, [("Q12321255", true)]⟩).props
        "Q12321255" = some false ∧
      (false = false ∨ dictLookup [("Q12321255", true)] "Q12321255" = some false) :=
  ⟨by decide, phase3_overwrite_only_false surfaces ⟨" canvas".data, true, [("Q12321255", true)]⟩
    "Q12321255" false (by decide)⟩

/-- Claim C4: every identifier from the media table that is present in
the returned mapping maps to false; phase 1 only ever inserts the
value False (line 565), and phases 2 and 3 write only identifiers from
the surfaces table, which shares no identifier with the media table. -/
theorem material_qids_map_to_false (s : String) (q : String) (b : Bool)
    (hq : q ∈ media.map (fun m => m.qid))
    (hl : dictLookup (get_medium_poperties s) q = some b) : b = false := by
  have hdisj : (media.all fun m => surfaces.all fun r => !(r.qid == m.qid)) = true := by decide
  have hnotsurf : ∀ r ∈ surfaces, r.qid ≠ q := by
    simp only [List.all_eq_true, Bool.not_eq_eq_eq_not, Bool.not_true, beq_eq_false_iff_ne,
      ne_eq] at hdisj
    simp only [List.mem_map] at hq
    obtain ⟨m, hm, rfl⟩ := hq
    intro r hr
    exact hdisj m hm r hr
  unfold get_medium_poperties at hl
  rw [phase3_lookup_ne _ _ _ hnotsurf, phase2_lookup_ne _ _ _ hnotsurf] at hl
  exact dictLookup_false _ _ _ (phase1_props_false media _ (by simp)) hl

/-- Claim C4, witness at the oil identifier for the input oil on
canvas. -/
theorem material_qids_map_to_false_witness :
    ("Q296955" ∈ media.map (fun m => m.qid)) ∧ false = false :=
  ⟨by decide, material_qids_map_to_false "oil on canvas" "Q296955" false (by decide) (by decide)⟩

/-- Claim C5: phase 2 equals a first-match search of the surface table
in declaration order; the first rule whose on-construction matches the
working text has its identifier recorded with flag equal to the
sawPaint argument, the matched spans are removed, and the phase stops
(the break of line 575), so phase 2 changes at most one key.  Inside
get_medium_poperties the flag argument is exactly the sawPaint value
produced by phase 1. -/
theorem phase2_first_match_wins (rules : List SurfaceRule) (st : ExtState) :
    phase2 rules st =
      match rules.find? (fun s => re_search (onPat s.surface) st.text) with
      | none => st
      | some s => ⟨re_sub (onPat s.surface) st.text, st.paint, dictSet st.props s.qid st.paint⟩ := by
  induction rules with
  | nil => rfl
  | cons s rest ih =>
    by_cases hm : re_search (onPat s.surface) st.text
    · have hfind : List.find? (fun r => re_search (onPat r.surface) st.text) (s :: rest) = some s :=
        List.find?_cons_of_pos _ hm
      rw [hfind]
      simp only [phase2, hm, if_true]
    · have hfind : List.find? (fun r => re_search (onPat r.surface) st.text) (s :: rest) =
          List.find? (fun r => re_search (onPat r.surface) st.text) rest :=
        List.find?_cons_of_neg _ (by simp [hm])
      rw [hfind]
      simp only [phase2, hm, if_false]
      exact ih

/-- Claim C6: every short-period input CCYY-YY parses to the range
from CCYY to CC prefixed to the final two digits, per the group
concatenation of lines 387-388; in particular 1884-86 gives the range
(1884, 1886). -/
theorem short_period_century_reconstruction (a b c d e f : Nat)
    (ha : a < 10) (hb : b < 10) (hc : c < 10) (hd : d < 10) (he : e < 10) (hf : f < 10) :
    normalize_date ⟨[dch a, dch b, dch c, dch d, '-', dch e, dch f]⟩ =
      DateResult.parsed (Inception.range (1000 * a + 100 * b + 10 * c + d)
        (1000 * a + 100 * b + 10 * e + f)) :=
  short_period_parse a b c d e f ha hb hc hd he hf

/-- Claim C6, witness at the literal example 1884-86. -/
theorem short_period_century_reconstruction_witness :
    (1 : Nat) < 10 ∧
      normalize_date "1884-86" = DateResult.parsed (Inception.range 1884 1886) :=
  ⟨by decide, short_period_century_reconstruction 1 8 8 4 8 6 (by decide) (by decide)
    (by decide) (by decide) (by decide) (by decide)⟩

/-- Claim C7, counterexample: whitespace around a numeric group is not
always tolerated; a single leading space makes 1884 unparseable, while
the same text without it parses, because every pattern of lines
350-357 anchors its first token directly at the start. -/
theorem whitespace_at_string_edge_rejected :
    normalize_date " 1884" = DateResult.unparseable ∧
      normalize_date "1884" = DateResult.parsed (Inception.exact 1884) ∧
      DateResult.unparseable ≠ DateResult.parsed (Inception.exact 1884) :=
  ⟨rfl, rfl, by decide⟩

/-- Claim C7, amended: whitespace is tolerated around the hyphen
separator with the same result, but not at the start or end of the
string (see the counterexample); matching is anchored on the left - an
input whose first character can start none of the eight patterns is
rejected whatever follows - and on the right - a four-digit year
followed by trailing text is rejected whenever the text is neither
empty nor the single trailing newline accepted by the Python dollar
anchor and does not open the hyphen of a range; the trailing-newline
input still parses as the bare year. -/
theorem whitespace_and_anchoring (a b c d e f g h n m : Nat) (c0 : Char) (l t : List Char)
    (ha : a < 10) (hb : b < 10) (hc : c < 10) (hd : d < 10)
    (he : e < 10) (hf : f < 10) (hg : g < 10) (hh : h < 10)
    (hc0d : c0.isDigit = false) (hc0c : (c0 == 'c') = false)
    (hc0b : eqCI c0 'b' = false) (hc0a : eqCI c0 'a' = false)
    (hend : atEnd t = false) (hdash : pCh '-' (skipSp t) = none) :
    normalize_date ⟨dch a :: dch b :: dch c :: dch d ::
        (List.replicate n ' ' ++ '-' :: (List.replicate m ' ' ++ [dch e, dch f, dch g, dch h]))⟩ =
        DateResult.parsed (Inception.range (1000 * a + 100 * b + 10 * c + d)
          (1000 * e + 100 * f + 10 * g + h)) ∧
      normalize_date ⟨c0 :: l⟩ = DateResult.unparseable ∧
      normalize_date ⟨dch a :: dch b :: dch c :: dch d :: t⟩ = DateResult.unparseable ∧
      normalize_date ⟨[dch a, dch b, dch c, dch d, '\n']⟩ =
        DateResult.parsed (Inception.exact (1000 * a + 100 * b + 10 * c + d)) :=
  ⟨normalize_period_spaces a b c d e f g h n m ha hb hc hd he hf hg hh,
    left_anchor_unparseable c0 l hc0d hc0c hc0b hc0a,
    right_anchor_unparseable a b c d t ha hb hc hd hend hdash,
    year_trailing_newline a b c d ha hb hc hd⟩

/-- Claim C7, witness for the amended theorem: hyphen spacing
accepted, prose on either side rejected, a trailing newline
tolerated. -/
theorem whitespace_and_anchoring_witness :
    ('p'.isDigit = false) ∧ (pCh '-' (skipSp " was painted".data) = none) ∧
      normalize_date "1884 - 1886" = DateResult.parsed (Inception.range 1884 1886) ∧
      normalize_date "painted in 1884" = DateResult.unparseable ∧
      normalize_date "1884 was painted" = DateResult.unparseable ∧
      normalize_date "1884\n" = DateResult.parsed (Inception.exact 1884) := by
  have h := whitespace_and_anchoring 1 8 8 4 1 8 8 6 1 1 'p' "ainted in 1884".data
    " was painted".data (by decide) (by decide) (by decide) (by decide) (by decide)
    (by decide) (by decide) (by decide) (by decide) (by decide) (by decide) (by decide)
    (by decide) (by decide)
  exact ⟨by decide, by decide, h.1, h.2.1, h.2.2.1, h.2.2.2⟩

/-- Claim C8: the extractor is a total function and an input matching
no material rule, no on-surface construction and no bare surface rule
returns the empty mapping. -/
theorem no_rule_match_empty_result (s : String)
    (h1 : ∀ m ∈ media, re_search (bpat m.medium) s.data = false)
    (h2 : ∀ r ∈ surfaces, re_search (onPat r.surface) s.data = false)
    (h3 : ∀ r ∈ surfaces, re_search (bpat r.surface) s.data = false) :
    get_medium_poperties s = [] := by
  unfold get_medium_poperties
  rw [phase1_nomatch media _ h1, phase2_nomatch _ _ h2, phase3_nomatch _ _ h3]

/-- Claim C8, witness at the input granite, which matches no rule. -/
theorem no_rule_match_empty_result_witness :
    (∀ m ∈ media, re_search (bpat m.medium) "granite".data = false) ∧
      get_medium_poperties "granite" = [] :=
  ⟨by decide, no_rule_match_empty_result "granite" (by decide) (by decide) (by decide)⟩

/-- Claim C9: the empty date string yields no inception and is not a
rejection, which is a different outcome from the unparseable rejection
raised for a non-empty unrecognized string such as not a date. -/
theorem empty_date_no_inception :
    normalize_date "" = DateResult.noInception ∧
      normalize_date "not a date" = DateResult.unparseable ∧
      DateResult.noInception ≠ DateResult.unparseable :=
  ⟨rfl, rfl, by decide⟩

/-- Claim C10: only the between and after patterns carry re.I (lines
362-363); the circa patterns are case-sensitive, so Circa Y, CIRCA Y
and C. Y are rejected for every four-digit year while circa Y and
c. Y are accepted as approximate, and AFTER Y and BETWEEN Y AND Y2
are accepted case-insensitively. -/
theorem circa_case_sensitivity (a b c d e f g h : Nat)
    (ha : a < 10) (hb : b < 10) (hc : c < 10) (hd : d < 10)
    (he : e < 10) (hf : f < 10) (hg : g < 10) (hh : h < 10) :
    normalize_date ⟨'C' :: 'i' :: 'r' :: 'c' :: 'a' :: ' ' :: [dch a, dch b, dch c, dch d]⟩ =
        DateResult.unparseable ∧
      normalize_date ⟨'C' :: 'I' :: 'R' :: 'C' :: 'A' :: ' ' :: [dch a, dch b, dch c, dch d]⟩ =
        DateResult.unparseable ∧
      normalize_date ⟨'C' :: '.' :: ' ' :: [dch a, dch b, dch c, dch d]⟩ =
        DateResult.unparseable ∧
      normalize_date ⟨'c' :: 'i' :: 'r' :: 'c' :: 'a' :: ' ' :: [dch a, dch b, dch c, dch d]⟩ =
        DateResult.parsed (Inception.exactApprox (1000 * a + 100 * b + 10 * c + d)) ∧
      normalize_date ⟨'c' :: '.' :: ' ' :: [dch a, dch b, dch c, dch d]⟩ =
        DateResult.parsed (Inception.exactApprox (1000 * a + 100 * b + 10 * c + d)) ∧
      normalize_date ⟨'A' :: 'F' :: 'T' :: 'E' :: 'R' :: ' ' :: [dch a, dch b, dch c, dch d]⟩ =
        DateResult.parsed (Inception.exactAfter (1000 * a + 100 * b + 10 * c + d)) ∧
      normalize_date ⟨'B' :: 'E' :: 'T' :: 'W' :: 'E' :: 'E' :: 'N' :: ' ' :: dch a :: dch b ::
          dch c :: dch d :: ' ' :: 'A' :: 'N' :: 'D' :: ' ' :: [dch e, dch f, dch g, dch h]⟩ =
        DateResult.parsed (Inception.range (1000 * a + 100 * b + 10 * c + d)
          (1000 * e + 100 * f + 10 * g + h)) := by
  refine ⟨rfl, rfl, rfl, ?_, ?_, ?_, ?_⟩
  · have hcirca : dateCircaMatch
        ('c' :: 'i' :: 'r' :: 'c' :: 'a' :: ' ' :: [dch a, dch b, dch c, dch d]) =
        some (1000 * a + 100 * b + 10 * c + d) := by
      have hstep : ∀ l, dateCircaMatch ('c' :: 'i' :: 'r' :: 'c' :: 'a' :: l) = yearEnd l :=
        fun _ => rfl
      rw [hstep, yearEnd_space, yearEnd_dch a b c d ha hb hc hd]
    simp [normalize_date, dateMatch, p4, hcirca]
  · have hcirca : dateCircaMatch ('c' :: '.' :: ' ' :: [dch a, dch b, dch c, dch d]) =
        some (1000 * a + 100 * b + 10 * c + d) := by
      have hstep : ∀ l, dateCircaMatch ('c' :: '.' :: l) = yearEnd l := fun _ => rfl
      rw [hstep, yearEnd_space, yearEnd_dch a b c d ha hb hc hd]
    simp [normalize_date, dateMatch, p4, hcirca]
  · have hafter : afterMatch
        ('A' :: 'F' :: 'T' :: 'E' :: 'R' :: ' ' :: [dch a, dch b, dch c, dch d]) =
        some (1000 * a + 100 * b + 10 * c + d) := by
      have hstep : ∀ l, afterMatch ('A' :: 'F' :: 'T' :: 'E' :: 'R' :: l) = yearEnd l :=
        fun _ => rfl
      rw [hstep, yearEnd_space, yearEnd_dch a b c d ha hb hc hd]
    have hd0 : dateMatch ('A' :: 'F' :: 'T' :: 'E' :: 'R' :: ' ' :: [dch a, dch b, dch c, dch d]) =
        none := rfl
    have hc0 : dateCircaMatch
        ('A' :: 'F' :: 'T' :: 'E' :: 'R' :: ' ' :: [dch a, dch b, dch c, dch d]) = none := rfl
    have hp0 : periodMatch
        ('A' :: 'F' :: 'T' :: 'E' :: 'R' :: ' ' :: [dch a, dch b, dch c, dch d]) = none := rfl
    have hb0 : betweenMatch
        ('A' :: 'F' :: 'T' :: 'E' :: 'R' :: ' ' :: [dch a, dch b, dch c, dch d]) = none := rfl
    simp [normalize_date, hd0, hc0, hp0, hb0, hafter]
  · have hstep : ∀ l, betweenMatch ('B' :: 'E' :: 'T' :: 'W' :: 'E' :: 'E' :: 'N' :: ' ' :: l) =
        (match p4 (skipSp l) with
         | some (y1, r1) =>
           match pStrCI ['a', 'n', 'd'] (skipSp r1) with
           | some r2 =>
             match yearEnd r2 with
             | some y2 => some (y1, y2)
             | none => none
           | none => none
         | none => none) := fun _ => rfl
    have hand : ∀ l, pStrCI ['a', 'n', 'd'] ('A' :: 'N' :: 'D' :: l) = some l := fun _ => rfl
    have hskA : ∀ l, skipSp (' ' :: 'A' :: l) = 'A' :: l := fun _ => rfl
    have hbetween : betweenMatch ('B' :: 'E' :: 'T' :: 'W' :: 'E' :: 'E' :: 'N' :: ' ' :: dch a ::
        dch b :: dch c :: dch d :: ' ' :: 'A' :: 'N' :: 'D' :: ' ' ::
          [dch e, dch f, dch g, dch h]) =
        some (1000 * a + 100 * b + 10 * c + d, 1000 * e + 100 * f + 10 * g + h) := by
      rw [hstep]
      simp only [skipSp_dch, p4_dch a b c d _ ha hb hc hd, hskA, hand, yearEnd_space,
        yearEnd_dch e f g h he hf hg hh]
    simp [normalize_date, dateMatch, dateCircaMatch, pStr, periodMatch, periodCore, p4,
      hbetween]

/-- Claim C10, witness at the year 1884 (and 1886 for the between
form). -/
theorem circa_case_sensitivity_witness :
    (1 : Nat) < 10 ∧
      normalize_date "Circa 1884" = DateResult.unparseable ∧
      normalize_date "circa 1884" = DateResult.parsed (Inception.exactApprox 1884) :=
  ⟨by decide,
    (circa_case_sensitivity 1 8 8 4 1 8 8 6 (by decide) (by decide) (by decide) (by decide)
      (by decide) (by decide) (by decide) (by decide)).1,
    (circa_case_sensitivity 1 8 8 4 1 8 8 6 (by decide) (by decide) (by decide) (by decide)
      (by decide) (by decide) (by decide) (by decide)).2.2.2.1⟩
